import Mathlib

/-!
Verification development for the excelsync repository
(src/excelsync/excel_sync.py and src/excelsync/schema.py).

The Python code is shallowly embedded: Python runtime values occurring in
spreadsheet cells become the inductive type `PyVal`; Python dicts become
association lists (with an insert-or-overwrite operation `dictInsert`
mirroring dict assignment semantics: updating an existing key keeps its
position, a new key is appended); JSON values handled by the schema
validator become `JVal`.  Fields that a persisted JSON document may lack
are `Option`-valued.
-/

namespace ExcelSync

/-- A Python runtime value as it can occur in a worksheet cell.
`float` carries a rational stand-in for the numeric payload (no claim
inspects float arithmetic); `other` carries the runtime `__name__` of the type.
In Python `bool` is a subclass of `int`; that subtype relation is modelled
by the `isinstance` predicates below, not by the constructors. -/
inductive PyVal where
  | none
  | bool (b : Bool)
  | int (n : Int)
  | float (q : ℚ)
  | str (s : String)
  | other (typeName : String)
deriving DecidableEq, Repr

/-- Python `isinstance(v, bool)`. -/
def isinstance_bool : PyVal → Bool
  | .bool _ => true
  | _ => false

/-- Python `isinstance(v, int)`.  True for booleans as well, since in
Python `bool` is a subclass of `int`. -/
def isinstance_int : PyVal → Bool
  | .bool _ => true
  | .int _ => true
  | _ => false

/-- Python `isinstance(v, float)`. -/
def isinstance_float : PyVal → Bool
  | .float _ => true
  | _ => false

/-- Python `isinstance(v, str)`. -/
def isinstance_str : PyVal → Bool
  | .str _ => true
  | _ => false

/-- Python `type(v).__name__`. -/
def pyTypeName : PyVal → String
  | .none => "NoneType"
  | .bool _ => "bool"
  | .int _ => "int"
  | .float _ => "float"
  | .str _ => "str"
  | .other t => t

/-- Python truthiness (`if cell.value:`): `None`, `False`, numeric zero and
the empty string are falsy; other objects are truthy by default. -/
def truthy : PyVal → Bool
  | .none => false
  | .bool b => b
  | .int n => n != 0
  | .float q => q != 0
  | .str s => s != ""
  | .other _ => true

/-- Python `str(v)`.  The textual form of floats and of arbitrary objects is
approximated (no claim inspects those strings); strings are returned as-is,
which is the case the code relies on. -/
def pyStr : PyVal → String
  | .none => "None"
  | .bool b => if b then "True" else "False"
  | .int n => toString n
  | .float q => toString q
  | .str s => s
  | .other t => "<" ++ t ++ " object>"

/-- The string payload of a `str` value (only used under an
`isinstance_str` guard, matching the Python flow). -/
def strVal : PyVal → String
  | .str s => s
  | _ => ""

/-- Python substring containment `needle in hay`. -/
def strContains (hay needle : String) : Bool :=
  (List.range (hay.toList.length + 1)).any
    (fun i => needle.toList.isPrefixOf (hay.toList.drop i))

/-- Python `s.lower()` restricted to its ASCII action (the only
characters the date indicators contain). -/
def pyLower (s : String) : String :=
  String.mk (s.toList.map Char.toLower)

/-- The date indicators of `ExcelSync._detect_data_type`. -/
def dateIndicators : List String := ["/", "-", "date", "time"]

/-- Embedding of `ExcelSync._detect_data_type` (excel_sync.py lines 107-131): the
if/elif chain over `None` / `bool` / `int` / `float` / `str`, with the
runtime type name as fallback. -/
def detect_data_type (v : PyVal) : String :=
  if v = PyVal.none then "null"
  else if isinstance_bool v then "boolean"
  else if isinstance_int v then "integer"
  else if isinstance_float v then "number"
  else if isinstance_str v then
    if dateIndicators.any (fun d => strContains (pyLower (strVal v)) d) then "datetime"
    else "string"
  else pyTypeName v

/-- The recursive worker of `get_column_letter`; structural recursion on
a fuel argument (the quotient `(n-1)/26` strictly decreases, so fuel `n`
always suffices). -/
def get_column_letter_go : Nat → Nat → String
  | _, 0 => ""
  | 0, _ + 1 => ""
  | fuel + 1, n + 1 =>
    get_column_letter_go fuel (n / 26) ++
      String.singleton (Char.ofNat ('A'.toNat + n % 26))

/-- Embedding of `openpyxl.utils.get_column_letter`: bijective base-26 column label,
A=1, …, Z=26, AA=27, …  (returns "" at 0, which extraction never passes). -/
def get_column_letter (n : Nat) : String :=
  get_column_letter_go n n

/-- Python `int(s)` on a string: defined on non-empty all-digit strings,
`Option.none` elsewhere (Python raises `ValueError` there; the code only
ever coerces decimal column keys coming from a JSON round-trip). -/
def parseNat (s : String) : Option Nat :=
  if s.toList ≠ [] ∧ s.toList.all Char.isDigit then
    some (s.toList.foldl (fun a c => a * 10 + (c.toNat - Char.toNat '0')) 0)
  else Option.none

/-! ### Association lists as Python dicts -/

/-- Dict lookup `d[k]` / `d.get(k)` on an insertion-ordered association
list. -/
def alookup {α β : Type} [DecidableEq α] : List (α × β) → α → Option β
  | [], _ => Option.none
  | (a, b) :: rest, k => if a = k then some b else alookup rest k

/-- Dict membership `k in d`. -/
def acontains {α β : Type} [DecidableEq α] (l : List (α × β)) (k : α) : Bool :=
  (alookup l k).isSome

/-- Dict assignment `d[k] = v`: updating an existing key keeps its position,
a fresh key is appended (Python insertion-order semantics). -/
def dictInsert {α β : Type} [DecidableEq α] (l : List (α × β)) (k : α) (v : β) :
    List (α × β) :=
  if acontains l k then l.map (fun p => if p.1 = k then (k, v) else p)
  else l ++ [(k, v)]

/-- Build a dict by iterating `d[k] = v` over a list of pairs. -/
def dictOfList {α β : Type} [DecidableEq α] (ps : List (α × β)) : List (α × β) :=
  ps.foldl (fun acc p => dictInsert acc p.1 p.2) []

/-! ### The structural document (the dict built by `extract_structure`
and round-tripped through JSON) -/

/-- A column key of a `headers` mapping: an `int` in a freshly extracted
structure, possibly a decimal string after a JSON round-trip. -/
inductive Key where
  | int (n : Nat)
  | str (s : String)
deriving DecidableEq, Repr

/-- Embedding of `int(col) if isinstance(col, str) else col` (excel_sync.py line 189).
Python `int` raises on non-numeric strings; only numeric strings are
modelled (theorems about string keys assume `parseNat s = some n`). -/
def coerceKey : Key → Nat
  | .int n => n
  | .str s => (parseNat s).getD 0

/-- One value of the `headers` mapping: `{"name": …, "column_letter": …}`
plus the optional `"data_type"` added when a data row exists. -/
structure HeaderInfo where
  name : String
  column_letter : String
  data_type : Option String
deriving DecidableEq, Repr

/-- One value of the `sheets` mapping.  The `headers` key is absent when
`max_row < header_row` or `max_column = 0`. -/
structure SheetStructure where
  headers : Option (List (Key × HeaderInfo))
  rows : Nat
  columns_count : Nat
  merged_cells : List String
deriving DecidableEq, Repr

instance : Inhabited SheetStructure :=
  ⟨{ headers := Option.none, rows := 0, columns_count := 0, merged_cells := [] }⟩

/-- The `file_properties` dict.  All fields are `Option`-valued because a
loaded JSON document may omit any of them; `extract_structure` always
fills all three. -/
structure FileProps where
  filename : Option String
  sheet_count : Option Nat
  header_row : Option Nat
deriving DecidableEq, Repr

/-- The structural document (`structure` dict in the Python code). -/
structure Structure where
  sheets : List (String × SheetStructure)
  named_ranges : List (String × String)
  file_properties : FileProps
deriving DecidableEq, Repr

/-! ### The openpyxl workbook boundary -/

/-- One worksheet: a 1-based cell grid with its populated extent and merge
list.  `cell r c` is the value of `sheet.cell(row=r, column=c).value`
(`PyVal.none` where empty). -/
structure WSheet where
  max_row : Nat
  max_column : Nat
  cell : Nat → Nat → PyVal
  merged_cells : List String

/-- An open workbook: ordered sheet names, name-indexed sheets
(`wb[name]`), and `defined_names` items as (name, attr_text) pairs. -/
structure Workbook where
  sheetnames : List String
  sheet : String → WSheet
  defined_names : List (String × String)

/-! ### `ExcelSync.extract_structure` -/

/-- The header scan of `extract_structure` (excel_sync.py lines 85-92):
for each column `1..max_column`, include the column iff the header cell is
truthy, recording `str(cell.value)` and the column letter (no
`data_type` yet). -/
def header_scan (sheet : WSheet) (header_row : Nat) :
    List (Nat × HeaderInfo) :=
  (List.range' 1 sheet.max_column).filterMap (fun col =>
    if truthy (sheet.cell header_row col) then
      some (col,
        { name := pyStr (sheet.cell header_row col)
          column_letter := get_column_letter col
          data_type := Option.none })
    else Option.none)

/-- The data-type pass of `extract_structure` (excel_sync.py lines
96-101): when the sheet reaches the data row `header_row + 1`, every
collected header gets a `data_type` classified from the single cell at
`(header_row + 1, col)`. -/
def add_data_types (sheet : WSheet) (header_row : Nat)
    (headers : List (Nat × HeaderInfo)) : List (Nat × HeaderInfo) :=
  if sheet.max_row ≥ header_row + 1 then
    headers.map (fun p =>
      (p.1, { p.2 with
                data_type :=
                  some (detect_data_type (sheet.cell (header_row + 1) p.1)) }))
  else headers

/-- The per-sheet body of the `for sheet_name in self.workbook.sheetnames`
loop of `extract_structure` (excel_sync.py lines 75-103): base fields,
plus the `headers` mapping exactly when `max_row >= header_row` and
`max_column > 0`. -/
def extract_sheet (sheet : WSheet) (header_row : Nat) : SheetStructure :=
  if sheet.max_row ≥ header_row ∧ sheet.max_column > 0 then
    { headers :=
        some ((add_data_types sheet header_row
            (header_scan sheet header_row)).map (fun p => (Key.int p.1, p.2)))
      rows := sheet.max_row
      columns_count := sheet.max_column
      merged_cells := sheet.merged_cells }
  else
    { headers := Option.none
      rows := sheet.max_row
      columns_count := sheet.max_column
      merged_cells := sheet.merged_cells }

/-- Embedding of `ExcelSync.extract_structure` (excel_sync.py lines 38-105) as a pure
function of the workbook snapshot, the file name and the effective header
row. -/
def extract_structure_pure (wb : Workbook) (filename : String)
    (header_row : Nat) : Structure :=
  { sheets :=
      wb.sheetnames.foldl
        (fun acc sheet_name =>
          dictInsert acc sheet_name (extract_sheet (wb.sheet sheet_name) header_row))
        []
    named_ranges :=
      wb.defined_names.foldl (fun acc p => dictInsert acc p.1 p.2) []
    file_properties :=
      { filename := some filename
        sheet_count := some wb.sheetnames.length
        header_row := some header_row } }

/-! ### `ExcelSync.validate_structure` -/

/-- The body of the `for col, header_info in expected_headers.items()` loop
of `validate_structure` (excel_sync.py lines 188-196): coerce the column
key to an integer, then report a missing column or a header-name
mismatch. -/
def columnIssues (sheet_name : String)
    (current_headers : List (Key × HeaderInfo)) (p : Key × HeaderInfo) :
    List String :=
  let col := coerceKey p.1
  match alookup current_headers (Key.int col) with
  | Option.none => ["Missing column " ++ toString col ++ " in sheet " ++ sheet_name]
  | some current_info =>
    if current_info.name ≠ p.2.name then
      ["Header mismatch in sheet " ++ sheet_name ++ ", column " ++ toString col ++
        ": expected \x27" ++ p.2.name ++ "\x27, got \x27" ++ current_info.name ++ "\x27"]
    else []

/-- The body of the `for sheet_name in expected_structure.get("sheets", {})`
loop (excel_sync.py lines 176-196): a missing sheet short-circuits that
per-column checks of that sheet (`continue`). -/
def sheetIssues (current : Structure) (p : String × SheetStructure) :
    List String :=
  if ¬ acontains current.sheets p.1 then ["Missing sheet: " ++ p.1]
  else
    let current_sheet := (alookup current.sheets p.1).getD default
    let expected_headers := p.2.headers.getD []
    let current_headers := current_sheet.headers.getD []
    expected_headers.flatMap (columnIssues p.1 current_headers)

/-- The comparison core of `validate_structure` (excel_sync.py lines
166-198), once `current_structure` has been extracted and
`expected_structure` is present: header-row check, then sheet/column
checks, accumulating all issues in order; validity is emptiness of the
issue list. -/
def validate_structure_core (current expected : Structure) :
    Bool × List String :=
  let header_issues :=
    match expected.file_properties.header_row,
        current.file_properties.header_row with
    | some e, some c =>
      if e ≠ c then
        ["Header row mismatch: expected row " ++ toString e ++
          ", got row " ++ toString c]
      else []
    | _, _ => []
  let issues := header_issues ++ expected.sheets.flatMap (sheetIssues current)
  (issues.isEmpty, issues)

/-! ### The `ExcelSync` instance: methods as state transformers -/

/-- The mutable fields of an `ExcelSync` instance after `__init__`:
the loaded workbook, the file name, the stored `header_row`, and the
structure held by `ExcelSchema` (`self.schema.structure`). -/
structure ExcelSyncState where
  workbook : Workbook
  filename : String
  header_row : Nat
  schema_structure : Structure

/-- Embedding of `ExcelSync.extract_structure(header_row=...)`: the override (or, when
absent, the stored `header_row`) is bound to a local variable only; the
instance state is returned unchanged (the method body contains no
assignment to `self`). -/
def ExcelSyncState.extract_structure (st : ExcelSyncState)
    (header_row : Option Nat) : Structure × ExcelSyncState :=
  (extract_structure_pure st.workbook st.filename
      (header_row.getD st.header_row),
    st)

/-- Embedding of `ExcelSync.export_structure` minus the file write at the boundary:
the JSON document it serializes, with the instance state unchanged. -/
def ExcelSyncState.export_structure (st : ExcelSyncState)
    (header_row : Option Nat) : Structure × ExcelSyncState :=
  ((st.extract_structure header_row).1, st)

/-- Embedding of `ExcelSync.validate_structure` (excel_sync.py lines 147-198): extract
the current structure, return `(True, [])` when no expected structure is
supplied, otherwise run the comparison core.  No instance state is
mutated. -/
def ExcelSyncState.validate_structure (st : ExcelSyncState)
    (expected_structure : Option Structure) (header_row : Option Nat) :
    (Bool × List String) × ExcelSyncState :=
  let current_structure :=
    extract_structure_pure st.workbook st.filename
      (header_row.getD st.header_row)
  match expected_structure with
  | Option.none => ((true, []), st)
  | some e => (validate_structure_core current_structure e, st)

/-- The header dict of one sheet inside `export_to_yaml` (excel_sync.py
lines 244-248): column index to `str(header_value)` for truthy header
cells. -/
def yaml_sheet_headers (sheet : WSheet) (header_row : Nat) :
    List (Nat × String) :=
  (List.range' 1 sheet.max_column).filterMap (fun col =>
    if truthy (sheet.cell header_row col) then
      some (col, pyStr (sheet.cell header_row col))
    else Option.none)

/-- The data rows of one sheet inside `export_to_yaml` (excel_sync.py
lines 250-259): for each row from `data_row` to `max_row`, the mapping
from header name to cell value over non-`None` cells; empty rows are
skipped. -/
def yaml_sheet_data (sheet : WSheet) (header_row : Nat) :
    List (List (String × PyVal)) :=
  let data_row := header_row + 1
  let headers := yaml_sheet_headers sheet header_row
  (List.range' data_row (sheet.max_row + 1 - data_row)).foldl
    (fun acc row =>
      let row_data := headers.foldl
        (fun rd p =>
          if sheet.cell row p.1 ≠ PyVal.none then
            dictInsert rd p.2 (sheet.cell row p.1)
          else rd)
        []
      if row_data ≠ [] then acc ++ [row_data] else acc)
    []

/-- Embedding of `ExcelSync.export_to_yaml` minus the file write at the boundary: the
`{"schema": …, "data": …}` document it serializes, with the instance
state unchanged. -/
def ExcelSyncState.export_to_yaml (st : ExcelSyncState)
    (header_row : Option Nat) :
    (Structure × List (String × List (List (String × PyVal)))) ×
      ExcelSyncState :=
  let hr := header_row.getD st.header_row
  let structure_doc := extract_structure_pure st.workbook st.filename hr
  ((structure_doc,
      st.workbook.sheetnames.foldl
        (fun acc sheet_name =>
          dictInsert acc sheet_name
            (yaml_sheet_data (st.workbook.sheet sheet_name) hr))
        []),
    st)

/-- Embedding of `ExcelSync.load_structure` (excel_sync.py lines 267-285) once the JSON
document has been parsed: overwrite the stored `header_row` exactly when
the loaded document carries `file_properties.header_row` (an absent
`file_properties` dict is modelled as a `FileProps` with all fields
absent), then hand the document to the schema. -/
def ExcelSyncState.load_structure (st : ExcelSyncState) (doc : Structure) :
    ExcelSyncState :=
  let st' :=
    match doc.file_properties.header_row with
    | some hr => { st with header_row := hr }
    | Option.none => st
  { st' with schema_structure := doc }

/-! ### `ExcelSchema` (schema.py): JSON-Schema projection -/

/-- The value of a `"type"` entry in the emitted JSON Schema: either a
single type name or a list of type names (`Union[str, List[str]]` in the
source). -/
inductive JType where
  | single (t : String)
  | multi (ts : List String)
deriving DecidableEq, Repr

/-- Embedding of `ExcelSchema._map_to_json_schema_type` (schema.py lines 97-116):
fixed-table lookup with `"string"` as the default for unrecognized
tags. -/
def map_to_json_schema_type (data_type : String) : JType :=
  let type_map : List (String × JType) :=
    [("string", .single "string"),
     ("integer", .single "integer"),
     ("number", .single "number"),
     ("boolean", .single "boolean"),
     ("datetime", .single "string"),
     ("null", .multi ["null", "string"])]
  (alookup type_map data_type).getD (.single "string")

/-- One property schema `{"type": …, "description": …}` emitted per
header name. -/
structure PropSchema where
  type : JType
  description : String
deriving DecidableEq, Repr

/-- The `"items"` object schema of one sheet: `{"type": "object",
"properties": …, "additionalProperties": False}`. -/
structure ItemsSchema where
  type : String
  properties : List (String × PropSchema)
  additionalProperties : Bool
deriving DecidableEq, Repr

/-- The per-sheet schema `{"type": "array", "items": …}`. -/
structure SheetSchema where
  type : String
  items : ItemsSchema
deriving DecidableEq, Repr

/-- The `"data"` property of the top-level schema: `{"type": "object",
"properties": {sheet name: sheet schema}}` (no `additionalProperties`
restriction at this level). -/
structure DataSchema where
  type : String
  properties : List (String × SheetSchema)
deriving DecidableEq, Repr

/-- The top-level JSON Schema emitted by `to_json_schema`. -/
structure TopSchema where
  schema_uri : String
  title : String
  description : String
  type : String
  data : DataSchema
deriving DecidableEq, Repr

/-- The `properties` dict built for one sheet inside `to_json_schema`
(schema.py lines 71-81): one entry per header, keyed by header name
(dict assignment, so a repeated name overwrites). -/
def sheet_properties (headers : List (Key × HeaderInfo)) :
    List (String × PropSchema) :=
  headers.foldl
    (fun props p =>
      let col_name := p.2.name
      let data_type := p.2.data_type.getD "string"
      let json_type := map_to_json_schema_type data_type
      dictInsert props col_name
        { type := json_type
          description := "Column " ++ p.2.column_letter ++ " - " ++ col_name })
    []

/-- The per-sheet schema built inside `to_json_schema` (schema.py lines
84-91). -/
def sheet_schema_of (sheet : SheetStructure) : SheetSchema :=
  { type := "array"
    items :=
      { type := "object"
        properties := sheet_properties (sheet.headers.getD [])
        additionalProperties := false } }

/-- Embedding of `ExcelSchema.to_json_schema` (schema.py lines 47-95). -/
def to_json_schema (st : Structure) : TopSchema :=
  let base : TopSchema :=
    { schema_uri := "http://json-schema.org/draft-07/schema#"
      title := "Excel Data Schema"
      description :=
        "Schema for Excel file " ++ (st.file_properties.filename.getD "unknown")
      type := "object"
      data := { type := "object", properties := [] } }
  st.sheets.foldl
    (fun acc p =>
      { acc with
          data :=
            { acc.data with
                properties :=
                  dictInsert acc.data.properties p.1 (sheet_schema_of p.2) } })
    base

/-! ### The external JSON-Schema validation engine (jsonschema)

The repository delegates data validation to the `jsonschema` library,
an external collaborator.  The engine is modelled here by its documented
draft-07 semantics, restricted to the schema fragment `to_json_schema`
emits: `type` checks, `properties` applied to the keys present in the
instance, `items` applied element-wise, and `additionalProperties: False`
producing one error per offending object.  `jsonschema.validate` raises a
single `ValidationError` when the instance does not conform;
`jsonschema.Draft7Validator.iter_errors` would yield them all. -/

/-- A JSON value, as passed to `validate_data`.  Booleans are a separate
constructor, matching how the jsonschema type checker special-cases
`bool` out of `integer`/`number`. -/
inductive JVal where
  | null
  | bool (b : Bool)
  | int (n : Int)
  | num (q : ℚ)
  | str (s : String)
  | arr (elts : List JVal)
  | obj (fields : List (String × JVal))

/-- Draft-07 primitive type check for the type names `to_json_schema`
uses. -/
def typeMatches (t : String) (v : JVal) : Bool :=
  match t with
  | "string" => match v with | .str _ => true | _ => false
  | "integer" => match v with | .int _ => true | _ => false
  | "number" => match v with | .int _ => true | .num _ => true | _ => false
  | "boolean" => match v with | .bool _ => true | _ => false
  | "null" => match v with | .null => true | _ => false
  | "object" => match v with | .obj _ => true | _ => false
  | "array" => match v with | .arr _ => true | _ => false
  | _ => false

/-- A `"type"` keyword check: a list of names is satisfied by any
member. -/
def jtypeMatches : JType → JVal → Bool
  | .single t, v => typeMatches t v
  | .multi ts, v => ts.any (fun t => typeMatches t v)

/-- Errors of one leaf property schema against one value. -/
def propErrors (path : String) (p : PropSchema) (v : JVal) : List String :=
  if jtypeMatches p.type v then []
  else [path ++ ": value is not of the expected type"]

/-- Errors of one row object against the `items` schema of a sheet: a `type`
error when the value is not an object; `properties` checks for the keys
present; one `additionalProperties` error when extra keys exist and the
schema is closed. -/
def itemErrors (path : String) (items : ItemsSchema) (v : JVal) :
    List String :=
  (if typeMatches items.type v then [] else [path ++ ": value is not an object"]) ++
    match v with
    | .obj fields =>
      fields.flatMap (fun f =>
        match alookup items.properties f.1 with
        | some p => propErrors (path ++ "." ++ f.1) p f.2
        | Option.none => []) ++
        (if items.additionalProperties then []
         else if fields.any (fun f => ¬ acontains items.properties f.1) then
           [path ++ ": additional properties are not allowed"]
         else [])
    | _ => []

/-- Errors of the value of one sheet against its array schema. -/
def sheetSchemaErrors (path : String) (s : SheetSchema) (v : JVal) :
    List String :=
  (if typeMatches s.type v then [] else [path ++ ": value is not an array"]) ++
    match v with
    | .arr elts =>
      (elts.enum.flatMap (fun e =>
        itemErrors (path ++ "[" ++ toString e.1 ++ "]") s.items e.2))
    | _ => []

/-- Errors of the `"data"` object against the data schema. -/
def dataErrors (ds : DataSchema) (v : JVal) : List String :=
  (if typeMatches ds.type v then [] else ["data: value is not an object"]) ++
    match v with
    | .obj fields =>
      fields.flatMap (fun f =>
        match alookup ds.properties f.1 with
        | some s => sheetSchemaErrors ("data." ++ f.1) s f.2
        | Option.none => [])
    | _ => []

/-- All draft-07 validation errors of an instance against a schema
emitted by `to_json_schema` (what `Draft7Validator.iter_errors` would
collect). -/
def schemaErrors (ts : TopSchema) (v : JVal) : List String :=
  (if typeMatches ts.type v then [] else ["value is not an object"]) ++
    match v with
    | .obj fields =>
      fields.flatMap (fun f =>
        if f.1 = "data" then dataErrors ts.data f.2 else [])
    | _ => []

/-- The sequence of all validation error messages for `data` against the
schema derived from `st` — what the spec says `validate_data`
returns ("collects every validation error message, not just the
first"). -/
def specAllValidationErrors (st : Structure) (data : List (String × JVal)) :
    List String :=
  schemaErrors (to_json_schema st) (JVal.obj [("data", JVal.obj data)])

/-- Embedding of `ExcelSchema.validate_data` (schema.py lines 118-136):
`jsonschema.validate` raises at most one `ValidationError`; its message is
the only string collected. -/
def validate_data (st : Structure) (data : List (String × JVal)) :
    List String :=
  match specAllValidationErrors st data with
  | [] => []
  | e :: _ => [e]

/-! ### `ExcelSchema.generate_yaml_template` -/

/-- Embedding of `ExcelSchema._get_type_example` (schema.py lines 171-190):
fixed-table lookup with `"example"` as the default. -/
def get_type_example (data_type : String) : JVal :=
  let examples : List (String × JVal) :=
    [("string", .str "example"),
     ("integer", .int 0),
     ("number", .num 0),
     ("boolean", .bool false),
     ("datetime", .str "2023-01-01"),
     ("null", .null)]
  (alookup examples data_type).getD (.str "example")

/-- The example row built for one sheet inside `generate_yaml_template`
(schema.py lines 156-165): keyed by header name via dict assignment, so a
repeated name overwrites. -/
def example_row_of (headers : List (Key × HeaderInfo)) :
    List (String × JVal) :=
  headers.foldl
    (fun row p =>
      dictInsert row p.2.name (get_type_example (p.2.data_type.getD "string")))
    []

/-- The `"data"` entry of one sheet inside `generate_yaml_template`:
one example row when the sheet has headers, else an empty list. -/
def template_sheet_data (sheet : SheetStructure) :
    List (List (String × JVal)) :=
  let headers := sheet.headers.getD []
  if headers ≠ [] then [example_row_of headers] else []

/-- Embedding of `ExcelSchema.generate_yaml_template` (schema.py lines 138-169): the
`{"schema": …, "data": …}` template document. -/
def generate_yaml_template (st : Structure) :
    Structure × List (String × List (List (String × JVal))) :=
  (st,
    st.sheets.foldl
      (fun acc p => dictInsert acc p.1 (template_sheet_data p.2))
      [])

/-! ### Concrete fixtures used to instantiate theorems on closed inputs -/

/-- A 2×2 worksheet: header `"Name"` at (1,1), the falsy number `0` at
(1,2), and one data row whose (2,1) cell is a date-like text. -/
def sampleSheet : WSheet :=
  { max_row := 2
    max_column := 2
    cell := fun r c =>
      if r = 1 ∧ c = 1 then PyVal.str "Name"
      else if r = 1 ∧ c = 2 then PyVal.int 0
      else if r = 2 ∧ c = 1 then PyVal.str "2023-01-01"
      else PyVal.none
    merged_cells := [] }

/-- A one-sheet workbook around `sampleSheet`. -/
def sampleWorkbook : Workbook :=
  { sheetnames := ["Sheet1"]
    sheet := fun _ => sampleSheet
    defined_names := [] }

/-- A one-sheet structural document with two integer-typed columns. -/
def sampleStructure : Structure :=
  { sheets :=
      [("Sheet1",
        { headers :=
            some
              [(Key.int 1,
                { name := "A", column_letter := "A", data_type := some "integer" }),
               (Key.int 2,
                { name := "B", column_letter := "B", data_type := some "integer" })]
          rows := 2
          columns_count := 2
          merged_cells := [] })]
    named_ranges := []
    file_properties :=
      { filename := some "f.xlsx", sheet_count := some 1, header_row := some 1 } }

/-- A data instance for `sampleStructure` whose single row has two
wrongly-typed cells (strings where integers are required). -/
def sampleBadData : List (String × JVal) :=
  [("Sheet1", JVal.arr [JVal.obj [("A", JVal.str "x"), ("B", JVal.str "y")]])]

/-! ### Helper lemmas about the dict model -/

theorem alookup_isSome_iff {α β : Type} [DecidableEq α]
    (l : List (α × β)) (k : α) :
    (alookup l k).isSome = true ↔ k ∈ l.map Prod.fst := by
  induction l with
  | nil => simp [alookup]
  | cons p t ih =>
    obtain ⟨a, b⟩ := p
    by_cases h : a = k
    · simp [alookup, h]
    · simp [alookup, h, ih, Ne.symm h]

theorem acontains_iff {α β : Type} [DecidableEq α]
    (l : List (α × β)) (k : α) :
    acontains l k = true ↔ k ∈ l.map Prod.fst :=
  alookup_isSome_iff l k

theorem alookup_mem {α β : Type} [DecidableEq α] :
    ∀ {l : List (α × β)} {k : α} {v : β}, alookup l k = some v → (k, v) ∈ l := by
  intro l
  induction l with
  | nil => intro k v h; simp [alookup] at h
  | cons p t ih =>
    intro k v h
    obtain ⟨a, b⟩ := p
    by_cases ha : a = k
    · rw [alookup, if_pos ha] at h
      subst ha
      obtain rfl : b = v := by simpa using h
      exact List.mem_cons_self _ _
    · rw [alookup, if_neg ha] at h
      exact List.mem_cons_of_mem _ (ih h)

theorem alookup_self_of_nodup {α β : Type} [DecidableEq α] :
    ∀ {l : List (α × β)}, (l.map Prod.fst).Nodup →
      ∀ {p : α × β}, p ∈ l → alookup l p.1 = some p.2 := by
  intro l
  induction l with
  | nil => intro _ p hp; simp at hp
  | cons q t ih =>
    intro hn p hp
    obtain ⟨a, b⟩ := q
    rw [List.map_cons, List.nodup_cons] at hn
    rcases List.mem_cons.1 hp with rfl | hp'
    · simp [alookup]
    · have hne : a ≠ p.1 := by
        intro he
        apply hn.1
        rw [he]
        exact List.mem_map.2 ⟨p, hp', rfl⟩
      rw [alookup, if_neg hne]
      exact ih hn.2 hp'

theorem dictInsert_keys {α β : Type} [DecidableEq α]
    (l : List (α × β)) (k : α) (v : β) :
    (dictInsert l k v).map Prod.fst =
      if acontains l k then l.map Prod.fst else l.map Prod.fst ++ [k] := by
  unfold dictInsert
  by_cases h : acontains l k
  · rw [if_pos h, if_pos h, List.map_map]
    have hf : Prod.fst ∘ (fun p : α × β => if p.1 = k then (k, v) else p)
        = Prod.fst := by
      funext p
      by_cases h2 : p.1 = k <;> simp [h2]
    rw [hf]
  · rw [if_neg h, if_neg h, List.map_append]
    rfl

theorem mem_keys_dictInsert {α β : Type} [DecidableEq α]
    (l : List (α × β)) (k : α) (v : β) (a : α) :
    a ∈ (dictInsert l k v).map Prod.fst ↔ a ∈ l.map Prod.fst ∨ a = k := by
  rw [dictInsert_keys]
  by_cases h : acontains l k
  · rw [if_pos h]
    constructor
    · exact Or.inl
    · rintro (h1 | rfl)
      · exact h1
      · exact (acontains_iff l a).1 h
  · rw [if_neg h]
    simp

theorem dictInsert_keys_nodup {α β : Type} [DecidableEq α]
    (l : List (α × β)) (k : α) (v : β)
    (h : (l.map Prod.fst).Nodup) :
    ((dictInsert l k v).map Prod.fst).Nodup := by
  rw [dictInsert_keys]
  by_cases hc : acontains l k
  · rwa [if_pos hc]
  · rw [if_neg hc]
    have hk : k ∉ l.map Prod.fst := by
      intro hmem
      exact hc ((acontains_iff l k).2 hmem)
    simp [List.nodup_append, h, List.disjoint_singleton, hk]

theorem mem_dictInsert_entry {α β : Type} [DecidableEq α]
    {l : List (α × β)} {k : α} {v : β} {p : α × β}
    (h : p ∈ dictInsert l k v) : p ∈ l ∨ p = (k, v) := by
  unfold dictInsert at h
  by_cases hc : acontains l k
  · rw [if_pos hc] at h
    obtain ⟨q, hq, hqe⟩ := List.mem_map.1 h
    by_cases h2 : q.1 = k
    · rw [if_pos h2] at hqe
      exact Or.inr hqe.symm
    · rw [if_neg h2] at hqe
      exact Or.inl (hqe ▸ hq)
  · rw [if_neg hc] at h
    rcases List.mem_append.1 h with h1 | h1
    · exact Or.inl h1
    · exact Or.inr (by simpa using h1)

theorem foldl_dictInsert_keys_nodup {α β γ : Type} [DecidableEq α]
    (key : γ → α) (val : γ → β) :
    ∀ (l : List γ) (acc : List (α × β)), (acc.map Prod.fst).Nodup →
      ((l.foldl (fun ac x => dictInsert ac (key x) (val x)) acc).map
          Prod.fst).Nodup := by
  intro l
  induction l with
  | nil => intro acc h; simpa using h
  | cons x t ih =>
    intro acc h
    rw [List.foldl_cons]
    exact ih _ (dictInsert_keys_nodup _ _ _ h)

theorem mem_keys_foldl_dictInsert {α β γ : Type} [DecidableEq α]
    (key : γ → α) (val : γ → β) :
    ∀ (l : List γ) (acc : List (α × β)) (a : α),
      a ∈ ((l.foldl (fun ac x => dictInsert ac (key x) (val x)) acc).map
          Prod.fst)
        ↔ a ∈ acc.map Prod.fst ∨ a ∈ l.map key := by
  intro l
  induction l with
  | nil => simp
  | cons x t ih =>
    intro acc a
    rw [List.foldl_cons, ih, mem_keys_dictInsert, List.map_cons,
      List.mem_cons]
    tauto

theorem mem_foldl_dictInsert_entry {α β γ : Type} [DecidableEq α]
    (key : γ → α) (val : γ → β) :
    ∀ (l : List γ) (acc : List (α × β)) (p : α × β),
      p ∈ l.foldl (fun ac x => dictInsert ac (key x) (val x)) acc →
      p ∈ acc ∨ ∃ x ∈ l, p = (key x, val x) := by
  intro l
  induction l with
  | nil =>
    intro acc p h
    exact Or.inl (by simpa using h)
  | cons x t ih =>
    intro acc p h
    rw [List.foldl_cons] at h
    rcases ih _ _ h with h1 | h2
    · rcases mem_dictInsert_entry h1 with h3 | h3
      · exact Or.inl h3
      · exact Or.inr ⟨x, List.mem_cons_self _ _, h3⟩
    · obtain ⟨y, hy, he⟩ := h2
      exact Or.inr ⟨y, List.mem_cons_of_mem _ hy, he⟩

theorem foldl_dictInsert_eq_append {α β γ : Type} [DecidableEq α]
    (key : γ → α) (val : γ → β) :
    ∀ (l : List γ) (acc : List (α × β)),
      (∀ x ∈ l, key x ∉ acc.map Prod.fst) → (l.map key).Nodup →
      l.foldl (fun ac x => dictInsert ac (key x) (val x)) acc
        = acc ++ l.map (fun x => (key x, val x)) := by
  intro l
  induction l with
  | nil => simp
  | cons x t ih =>
    intro acc hfresh hnd
    have hx : ¬ acontains acc (key x) = true := by
      intro hc
      exact hfresh x (List.mem_cons_self _ _) ((acontains_iff _ _).1 hc)
    rw [List.map_cons, List.nodup_cons] at hnd
    rw [List.foldl_cons]
    have hstep : dictInsert acc (key x) (val x) = acc ++ [(key x, val x)] := by
      unfold dictInsert
      rw [if_neg hx]
    rw [hstep, ih]
    · simp
    · intro y hy
      rw [List.map_append]
      intro hmem
      rcases List.mem_append.1 hmem with h1 | h1
      · exact hfresh y (List.mem_cons_of_mem _ hy) h1
      · have : key y = key x := by simpa using h1
        exact hnd.1 (this ▸ List.mem_map_of_mem key hy)
    · exact hnd.2

theorem flatMap_nil_of_forall {α β : Type} :
    ∀ (l : List α) (f : α → List β), (∀ x ∈ l, f x = []) → l.flatMap f = [] := by
  intro l
  induction l with
  | nil => intro f _; rfl
  | cons x t ih =>
    intro f h
    rw [List.flatMap_cons, h x (List.mem_cons_self _ _), ih f
      (fun y hy => h y (List.mem_cons_of_mem _ hy))]
    rfl

/-! ### Helper lemmas about extraction -/

theorem header_scan_keys (sheet : WSheet) (hr : Nat) :
    (header_scan sheet hr).map Prod.fst
      = (List.range' 1 sheet.max_column).filter
          (fun col => truthy (sheet.cell hr col)) := by
  unfold header_scan
  generalize List.range' 1 sheet.max_column = l
  induction l with
  | nil => rfl
  | cons a t ih =>
    by_cases h : truthy (sheet.cell hr a) <;>
      simp [List.filterMap_cons, List.filter_cons, h, ih]

theorem header_scan_entry (sheet : WSheet) (hr : Nat) {q : Nat × HeaderInfo}
    (hq : q ∈ header_scan sheet hr) :
    q.2 = { name := pyStr (sheet.cell hr q.1)
            column_letter := get_column_letter q.1
            data_type := Option.none } := by
  unfold header_scan at hq
  obtain ⟨a, _, hfa⟩ := List.mem_filterMap.1 hq
  by_cases h : truthy (sheet.cell hr a)
  · rw [if_pos h] at hfa
    obtain rfl := Option.some.inj hfa
    rfl
  · rw [if_neg h] at hfa
    cases hfa

theorem add_data_types_keys (sheet : WSheet) (hr : Nat)
    (headers : List (Nat × HeaderInfo)) :
    (add_data_types sheet hr headers).map Prod.fst = headers.map Prod.fst := by
  unfold add_data_types
  by_cases h : sheet.max_row ≥ hr + 1
  · rw [if_pos h, List.map_map]
    rfl
  · rw [if_neg h]

theorem add_data_types_entry (sheet : WSheet) (hr : Nat)
    (headers : List (Nat × HeaderInfo)) {q : Nat × HeaderInfo}
    (hq : q ∈ add_data_types sheet hr headers) :
    (sheet.max_row ≥ hr + 1 ∧
      ∃ p ∈ headers,
        q = (p.1, { p.2 with
                      data_type :=
                        some (detect_data_type (sheet.cell (hr + 1) p.1)) })) ∨
    (¬ sheet.max_row ≥ hr + 1 ∧ q ∈ headers) := by
  unfold add_data_types at hq
  by_cases h : sheet.max_row ≥ hr + 1
  · rw [if_pos h] at hq
    obtain ⟨p, hp, hpe⟩ := List.mem_map.1 hq
    exact Or.inl ⟨h, p, hp, hpe.symm⟩
  · rw [if_neg h] at hq
    exact Or.inr ⟨h, hq⟩

theorem extract_sheet_headers_some (sheet : WSheet) (hr : Nat)
    (hc : sheet.max_row ≥ hr ∧ sheet.max_column > 0) :
    (extract_sheet sheet hr).headers
      = some ((add_data_types sheet hr (header_scan sheet hr)).map
          (fun p => (Key.int p.1, p.2))) := by
  unfold extract_sheet
  rw [if_pos hc]

theorem extract_sheet_headers_inv (sheet : WSheet) (hr : Nat)
    {hs : List (Key × HeaderInfo)}
    (hhs : (extract_sheet sheet hr).headers = some hs) :
    hs = (add_data_types sheet hr (header_scan sheet hr)).map
        (fun p => (Key.int p.1, p.2)) := by
  unfold extract_sheet at hhs
  by_cases hc : sheet.max_row ≥ hr ∧ sheet.max_column > 0
  · rw [if_pos hc] at hhs
    exact (Option.some.inj hhs).symm
  · rw [if_neg hc] at hhs
    cases hhs

theorem extract_sheet_headers_wf (sheet : WSheet) (hr : Nat)
    {hs : List (Key × HeaderInfo)}
    (hhs : (extract_sheet sheet hr).headers = some hs) :
    (hs.map Prod.fst).Nodup ∧ ∀ q ∈ hs, ∃ n : Nat, q.1 = Key.int n := by
  obtain rfl := extract_sheet_headers_inv sheet hr hhs
  constructor
  · have h1 : ((add_data_types sheet hr (header_scan sheet hr)).map
          (fun p => (Key.int p.1, p.2))).map Prod.fst
        = ((add_data_types sheet hr (header_scan sheet hr)).map
            Prod.fst).map Key.int := by
      rw [List.map_map, List.map_map]
      rfl
    rw [h1, add_data_types_keys, header_scan_keys]
    exact List.Nodup.map (fun a b h => Key.int.inj h)
      (List.Nodup.filter _ (List.nodup_range' _ _))
  · intro q hq
    obtain ⟨p, _, hpe⟩ := List.mem_map.1 hq
    exact ⟨p.1, by rw [← hpe]⟩

theorem extract_sheets_nodup (wb : Workbook) (fname : String) (hr : Nat) :
    ((extract_structure_pure wb fname hr).sheets.map Prod.fst).Nodup := by
  unfold extract_structure_pure
  exact foldl_dictInsert_keys_nodup (fun sn => sn)
    (fun sn => extract_sheet (wb.sheet sn) hr) wb.sheetnames [] List.nodup_nil

theorem extract_sheets_entry (wb : Workbook) (fname : String) (hr : Nat)
    {p : String × SheetStructure}
    (hp : p ∈ (extract_structure_pure wb fname hr).sheets) :
    p.2 = extract_sheet (wb.sheet p.1) hr := by
  unfold extract_structure_pure at hp
  rcases mem_foldl_dictInsert_entry (fun sn => sn)
      (fun sn => extract_sheet (wb.sheet sn) hr) wb.sheetnames [] p hp with
    h1 | ⟨x, _, he⟩
  · cases h1
  · rw [he]

/-- Any structure whose sheet keys are distinct and whose header keys are
distinct integer keys validates against itself with no issues. -/
theorem validate_core_self (S : Structure)
    (hkeys : (S.sheets.map Prod.fst).Nodup)
    (hw : ∀ p ∈ S.sheets, ∀ hs, p.2.headers = some hs →
        (hs.map Prod.fst).Nodup ∧ ∀ q ∈ hs, ∃ n : Nat, q.1 = Key.int n) :
    validate_structure_core S S = (true, []) := by
  unfold validate_structure_core
  have hhdr :
      (match S.file_properties.header_row, S.file_properties.header_row with
        | some e, some c =>
          if e ≠ c then
            ["Header row mismatch: expected row " ++ toString e ++
              ", got row " ++ toString c]
          else []
        | _, _ => ([] : List String)) = [] := by
    cases S.file_properties.header_row <;> simp
  rw [hhdr]
  have hsheets : S.sheets.flatMap (sheetIssues S) = [] := by
    apply flatMap_nil_of_forall
    intro p hp
    unfold sheetIssues
    have hac : acontains S.sheets p.1 = true :=
      (acontains_iff _ _).2 (List.mem_map.2 ⟨p, hp, rfl⟩)
    rw [if_neg (by simp [hac])]
    have hl : alookup S.sheets p.1 = some p.2 :=
      alookup_self_of_nodup hkeys hp
    rw [hl]
    cases hh : p.2.headers with
    | none => simp [hh]
    | some hs =>
      obtain ⟨hnod, hint⟩ := hw p hp hs hh
      simp only [Option.getD_some, hh]
      apply flatMap_nil_of_forall
      intro q hq
      obtain ⟨n, hqk⟩ := hint q hq
      have hlq : alookup hs (Key.int n) = some q.2 := by
        rw [← hqk]
        exact alookup_self_of_nodup hnod hq
      simp [columnIssues, hqk, coerceKey, hlq]
  rw [hsheets]
  rfl

theorem to_json_schema_fold (l : List (String × SheetStructure)) :
    ∀ acc : TopSchema,
      l.foldl
        (fun acc p =>
          { acc with
              data :=
                { acc.data with
                    properties :=
                      dictInsert acc.data.properties p.1 (sheet_schema_of p.2) } })
        acc
      = { acc with
            data :=
              { acc.data with
                  properties :=
                    l.foldl
                      (fun props p => dictInsert props p.1 (sheet_schema_of p.2))
                      acc.data.properties } } := by
  induction l with
  | nil => intro acc; rfl
  | cons x t ih =>
    intro acc
    rw [List.foldl_cons, ih, List.foldl_cons]

theorem to_json_schema_properties (S : Structure) :
    (to_json_schema S).data.properties
      = S.sheets.foldl
          (fun props p => dictInsert props p.1 (sheet_schema_of p.2)) [] := by
  unfold to_json_schema
  rw [to_json_schema_fold]

/-! ### Claim theorems -/

/-- C6: for every workbook state and header-row override, invoking
`validate_structure` with no expected structure supplied returns exactly
`(true, [])` with no issues — the deliberate degenerate "no baseline"
case. -/
theorem validate_structure_no_baseline (st : ExcelSyncState)
    (header_row : Option Nat) :
    (st.validate_structure Option.none header_row).1
      = (true, ([] : List String)) := rfl

/-- C10: `extract_structure`, `validate_structure` and the export
operations leave the instance state — in particular the stored
`header_row` — unchanged; the override only determines the extracted
extracted document field `file_properties.header_row`.  `load_structure` overwrites the
stored `header_row` exactly when the loaded document carries
`file_properties.header_row`, and leaves it unchanged otherwise. -/
theorem header_row_frame (st : ExcelSyncState) (header_row : Option Nat)
    (expected : Option Structure) (doc : Structure) :
    (st.extract_structure header_row).2 = st ∧
    (st.validate_structure expected header_row).2 = st ∧
    (st.export_structure header_row).2 = st ∧
    (st.export_to_yaml header_row).2 = st ∧
    ((st.extract_structure header_row).1.file_properties.header_row
      = some (header_row.getD st.header_row)) ∧
    ((st.load_structure doc).header_row
      = doc.file_properties.header_row.getD st.header_row) ∧
    (st.load_structure doc).schema_structure = doc := by
  refine ⟨rfl, ?_, rfl, rfl, rfl, ?_, ?_⟩
  · cases expected <;> rfl
  · cases hdoc : doc.file_properties.header_row <;>
      simp [ExcelSyncState.load_structure, hdoc]
  · cases hdoc : doc.file_properties.header_row <;>
      simp [ExcelSyncState.load_structure, hdoc]

/-- C2: `_detect_data_type` applies its six classification rules in
strict priority order — absent, boolean, integral number, other numeric,
text, runtime-type-name fallback.  Booleans, for which
`isinstance(v, int)` also holds, are classified `"boolean"` and never
`"integer"`, and every value receives exactly one tag. -/
theorem detect_data_type_priority (v : PyVal) :
    (v = PyVal.none → detect_data_type v = "null") ∧
    (v ≠ PyVal.none → isinstance_bool v = true →
      detect_data_type v = "boolean") ∧
    (v ≠ PyVal.none → isinstance_bool v = false → isinstance_int v = true →
      detect_data_type v = "integer") ∧
    (v ≠ PyVal.none → isinstance_bool v = false → isinstance_int v = false →
      isinstance_float v = true → detect_data_type v = "number") ∧
    (v ≠ PyVal.none → isinstance_bool v = false → isinstance_int v = false →
      isinstance_float v = false → isinstance_str v = true →
      detect_data_type v =
        (if dateIndicators.any (fun d => strContains (pyLower (strVal v)) d)
          then "datetime" else "string")) ∧
    (v ≠ PyVal.none → isinstance_bool v = false → isinstance_int v = false →
      isinstance_float v = false → isinstance_str v = false →
      detect_data_type v = pyTypeName v) ∧
    (isinstance_bool v = true →
      isinstance_int v = true ∧ detect_data_type v = "boolean" ∧
        detect_data_type v ≠ "integer") ∧
    (∃! t : String, detect_data_type v = t) := by
  refine ⟨?_, ?_, ?_, ?_, ?_, ?_, ?_,
    ⟨detect_data_type v, rfl, fun _ hy => hy.symm⟩⟩ <;>
    cases v <;> intros <;>
      simp_all [detect_data_type, isinstance_bool, isinstance_int,
        isinstance_float, isinstance_str, pyTypeName, strVal]

/-- Witness for C2 at the boolean `True`: `isinstance(True, int)` holds,
yet the tag is `"boolean"`, not `"integer"`. -/
theorem detect_data_type_priority_witness :
    isinstance_int (PyVal.bool true) = true ∧
    detect_data_type (PyVal.bool true) = "boolean" ∧
    detect_data_type (PyVal.bool true) ≠ "integer" :=
  (detect_data_type_priority (PyVal.bool true)).2.2.2.2.2.2.1 rfl

/-- C7: the per-column check of `validate_structure` coerces a string
column key to an integer before lookup, so it produces identical issues
whether the expected key arrives as the integer or as its decimal
string. -/
theorem columnIssues_key_coercion (sheet_name : String)
    (current_headers : List (Key × HeaderInfo)) (info : HeaderInfo)
    (n : Nat) (s : String) (hparse : parseNat s = some n) :
    columnIssues sheet_name current_headers (Key.str s, info)
      = columnIssues sheet_name current_headers (Key.int n, info) := by
  unfold columnIssues
  simp only [coerceKey, hparse, Option.getD_some]

/-- Witness for C7 at the key `"1"` over an empty current-headers
mapping. -/
theorem columnIssues_key_coercion_witness :
    columnIssues "Sheet1" []
        (Key.str "1",
          { name := "A", column_letter := "A", data_type := Option.none })
      = columnIssues "Sheet1" []
          (Key.int 1,
            { name := "A", column_letter := "A", data_type := Option.none }) :=
  columnIssues_key_coercion "Sheet1" [] _ 1 "1" (by decide)

/-- C3: for every sheet with `max_row ≥ header_row` and `max_column > 0`
and every column in `1..max_column`, the extracted `headers` mapping
contains the column iff the value of the header cell is truthy; a
present-but-falsy header value (numeric 0, empty string) produces no
entry. -/
theorem extract_headers_truthy (sheet : WSheet) (hr col : Nat)
    (h1 : sheet.max_row ≥ hr) (h2 : sheet.max_column > 0)
    (h3 : 1 ≤ col) (h4 : col ≤ sheet.max_column) :
    ∃ hs, (extract_sheet sheet hr).headers = some hs ∧
      (Key.int col ∈ hs.map Prod.fst ↔ truthy (sheet.cell hr col) = true) := by
  refine ⟨_, extract_sheet_headers_some sheet hr ⟨h1, h2⟩, ?_⟩
  have hk : ((add_data_types sheet hr (header_scan sheet hr)).map
        (fun p => (Key.int p.1, p.2))).map Prod.fst
      = ((List.range' 1 sheet.max_column).filter
          (fun c => truthy (sheet.cell hr c))).map Key.int := by
    have e1 : ((add_data_types sheet hr (header_scan sheet hr)).map
          (fun p => (Key.int p.1, p.2))).map Prod.fst
        = ((add_data_types sheet hr (header_scan sheet hr)).map
            Prod.fst).map Key.int := by
      rw [List.map_map, List.map_map]
      rfl
    rw [e1, add_data_types_keys, header_scan_keys]
  rw [hk]
  constructor
  · intro hmem
    obtain ⟨c, hc, hce⟩ := List.mem_map.1 hmem
    obtain rfl := Key.int.inj hce
    exact (List.mem_filter.1 hc).2
  · intro htr
    apply List.mem_map_of_mem
    apply List.mem_filter.2
    refine ⟨?_, htr⟩
    rw [List.mem_range'_1]
    omega

/-- Witness for C3 on `sampleSheet` at column 1 (truthy header
`"Name"`). -/
theorem extract_headers_truthy_witness :
    ∃ hs, (extract_sheet sampleSheet 1).headers = some hs ∧
      (Key.int 1 ∈ hs.map Prod.fst ↔ truthy (sampleSheet.cell 1 1) = true) :=
  extract_headers_truthy sampleSheet 1 1 (by decide) (by decide) (by decide)
    (by decide)

/-- C4: every extracted header descriptor carries a `data_type` iff the
sheet reaches the data row `header_row + 1`, and when present the tag is
computed from exactly the single cell at `(header_row + 1, col)`. -/
theorem extract_data_type_single_cell (sheet : WSheet) (hr : Nat)
    (hs : List (Key × HeaderInfo)) (col : Nat) (info : HeaderInfo)
    (hhs : (extract_sheet sheet hr).headers = some hs)
    (hmem : (Key.int col, info) ∈ hs) :
    (info.data_type.isSome = true ↔ sheet.max_row ≥ hr + 1) ∧
    (∀ dt, info.data_type = some dt →
      dt = detect_data_type (sheet.cell (hr + 1) col)) := by
  obtain rfl := extract_sheet_headers_inv sheet hr hhs
  obtain ⟨p, hp, hpe⟩ := List.mem_map.1 hmem
  rcases add_data_types_entry sheet hr _ hp with ⟨hge, q, _, hqe⟩ | ⟨hlt, hp'⟩
  · subst hqe
    obtain ⟨hpk, hpv⟩ := Prod.mk.inj hpe
    obtain rfl := Key.int.inj hpk
    subst hpv
    constructor
    · simp [hge]
    · intro dt hdt
      simp only [Option.some.injEq] at hdt
      exact hdt.symm
  · have hdt0 : p.2.data_type = Option.none := by
      rw [header_scan_entry sheet hr hp']
    obtain ⟨hpk, hpv⟩ := Prod.mk.inj hpe
    obtain rfl := Key.int.inj hpk
    subst hpv
    constructor
    · simp [hdt0, hlt]
    · intro dt hdt
      rw [hdt0] at hdt
      cases hdt

/-- Witness for C4 on `sampleSheet` (data row present, tag
`"datetime"` from cell (2,1)). -/
theorem extract_data_type_single_cell_witness :
    (({ name := "Name", column_letter := "A",
        data_type := some "datetime" } : HeaderInfo).data_type.isSome = true
      ↔ sampleSheet.max_row ≥ 1 + 1) ∧
    (∀ dt,
      ({ name := "Name", column_letter := "A",
         data_type := some "datetime" } : HeaderInfo).data_type = some dt →
      dt = detect_data_type (sampleSheet.cell (1 + 1) 1)) :=
  extract_data_type_single_cell sampleSheet 1
    [(Key.int 1,
      { name := "Name", column_letter := "A", data_type := some "datetime" })]
    1 { name := "Name", column_letter := "A", data_type := some "datetime" }
    (by decide) (by decide)

/-- C5: validating a workbook against the structure just extracted from
it with the same header row yields `(true, [])` — a document is always
valid against itself. -/
theorem validate_self_idempotent (wb : Workbook) (fname : String) (hr : Nat)
    (sch : Structure) :
    (ExcelSyncState.validate_structure
        { workbook := wb, filename := fname, header_row := hr,
          schema_structure := sch }
        (some (extract_structure_pure wb fname hr)) Option.none).1
      = (true, []) := by
  have hwf : ∀ p ∈ (extract_structure_pure wb fname hr).sheets,
      ∀ hs, p.2.headers = some hs →
        (hs.map Prod.fst).Nodup ∧ ∀ q ∈ hs, ∃ n : Nat, q.1 = Key.int n := by
    intro p hp hs hh
    rw [extract_sheets_entry wb fname hr hp] at hh
    exact extract_sheet_headers_wf _ _ hh
  exact validate_core_self _ (extract_sheets_nodup wb fname hr) hwf

/-- C8: `to_json_schema` emits one array-of-objects schema per sheet
whose object properties are exactly the header names of that sheet, each typed
via the fixed mapping (`string→string`, `integer→integer`,
`number→number`, `boolean→boolean`, `datetime→string`,
`null→["null","string"]`, anything else `→string`), and whose objects
reject additional properties (closed schema). -/
theorem to_json_schema_spec (S : Structure)
    (hkeys : (S.sheets.map Prod.fst).Nodup) :
    ((to_json_schema S).data.properties
      = S.sheets.map (fun p => (p.1, sheet_schema_of p.2))) ∧
    (∀ sheet : SheetStructure,
      (sheet_schema_of sheet).type = "array" ∧
      (sheet_schema_of sheet).items.type = "object" ∧
      (sheet_schema_of sheet).items.additionalProperties = false ∧
      (∀ nm, nm ∈ (sheet_schema_of sheet).items.properties.map Prod.fst ↔
        nm ∈ (sheet.headers.getD []).map (fun q => q.2.name)) ∧
      (∀ nm ps, (nm, ps) ∈ (sheet_schema_of sheet).items.properties →
        ∃ q ∈ sheet.headers.getD [], q.2.name = nm ∧
          ps.type = map_to_json_schema_type (q.2.data_type.getD "string"))) ∧
    (map_to_json_schema_type "string" = JType.single "string" ∧
     map_to_json_schema_type "integer" = JType.single "integer" ∧
     map_to_json_schema_type "number" = JType.single "number" ∧
     map_to_json_schema_type "boolean" = JType.single "boolean" ∧
     map_to_json_schema_type "datetime" = JType.single "string" ∧
     map_to_json_schema_type "null" = JType.multi ["null", "string"] ∧
     ∀ t, t ∉ ["string", "integer", "number", "boolean", "datetime", "null"] →
       map_to_json_schema_type t = JType.single "string") := by
  refine ⟨?_, ?_, rfl, rfl, rfl, rfl, rfl, rfl, ?_⟩
  · rw [to_json_schema_properties]
    have h1 := foldl_dictInsert_eq_append Prod.fst
      (fun p : String × SheetStructure => sheet_schema_of p.2)
      S.sheets [] (by simp) hkeys
    rw [h1, List.nil_append]
  · intro sheet
    refine ⟨rfl, rfl, rfl, ?_, ?_⟩
    · intro nm
      have h2 := mem_keys_foldl_dictInsert
        (fun q : Key × HeaderInfo => q.2.name)
        (fun q : Key × HeaderInfo =>
          ({ type := map_to_json_schema_type (q.2.data_type.getD "string")
             description :=
               "Column " ++ q.2.column_letter ++ " - " ++ q.2.name } :
            PropSchema))
        (sheet.headers.getD []) [] nm
      rw [show (sheet_schema_of sheet).items.properties
          = sheet_properties (sheet.headers.getD []) from rfl]
      unfold sheet_properties
      rw [h2]
      simp
    · intro nm ps hmem
      rw [show (sheet_schema_of sheet).items.properties
          = sheet_properties (sheet.headers.getD []) from rfl] at hmem
      unfold sheet_properties at hmem
      rcases mem_foldl_dictInsert_entry
        (fun q : Key × HeaderInfo => q.2.name)
        (fun q : Key × HeaderInfo =>
          ({ type := map_to_json_schema_type (q.2.data_type.getD "string")
             description :=
               "Column " ++ q.2.column_letter ++ " - " ++ q.2.name } :
            PropSchema))
        (sheet.headers.getD []) [] (nm, ps) hmem with h0 | ⟨q, hq, he⟩
      · cases h0
      · obtain ⟨he1, he2⟩ := Prod.mk.inj he
        exact ⟨q, hq, he1.symm, by rw [he2]⟩
  · intro t ht
    unfold map_to_json_schema_type
    cases hl : alookup
        [("string", JType.single "string"),
         ("integer", JType.single "integer"),
         ("number", JType.single "number"),
         ("boolean", JType.single "boolean"),
         ("datetime", JType.single "string"),
         ("null", JType.multi ["null", "string"])] t with
    | none => simp [hl]
    | some v =>
      exfalso
      apply ht
      have hsome : (alookup
          [("string", JType.single "string"),
           ("integer", JType.single "integer"),
           ("number", JType.single "number"),
           ("boolean", JType.single "boolean"),
           ("datetime", JType.single "string"),
           ("null", JType.multi ["null", "string"])] t).isSome = true := by
        rw [hl]
        rfl
      have := (alookup_isSome_iff _ t).1 hsome
      simpa using this

/-- Witness for C8 on `sampleStructure`. -/
theorem to_json_schema_spec_witness :
    (to_json_schema sampleStructure).data.properties
      = sampleStructure.sheets.map (fun p => (p.1, sheet_schema_of p.2)) :=
  (to_json_schema_spec sampleStructure (by decide)).1

/-- C9: two columns of one sheet carrying the same header name collapse
to a single schema property (the type and description of the later column win)
and to a single example-record key in the YAML template, with no error
reported. -/
theorem duplicate_header_collapse (sn : String) (k1 k2 : Key)
    (nm L1 L2 : String) (d1 d2 : Option String) (rcount ccount : Nat)
    (mc : List String) (nr : List (String × String)) (fp : FileProps) :
    (to_json_schema
        { sheets :=
            [(sn,
              { headers :=
                  some
                    [(k1, { name := nm, column_letter := L1, data_type := d1 }),
                     (k2, { name := nm, column_letter := L2, data_type := d2 })]
                rows := rcount
                columns_count := ccount
                merged_cells := mc })]
          named_ranges := nr
          file_properties := fp }).data.properties
      = [(sn,
          { type := "array"
            items :=
              { type := "object"
                properties :=
                  [(nm,
                    { type := map_to_json_schema_type (d2.getD "string")
                      description := "Column " ++ L2 ++ " - " ++ nm })]
                additionalProperties := false } })] ∧
    (generate_yaml_template
        { sheets :=
            [(sn,
              { headers :=
                  some
                    [(k1, { name := nm, column_letter := L1, data_type := d1 }),
                     (k2, { name := nm, column_letter := L2, data_type := d2 })]
                rows := rcount
                columns_count := ccount
                merged_cells := mc })]
          named_ranges := nr
          file_properties := fp }).2
      = [(sn, [[(nm, get_type_example (d2.getD "string"))]])] := by
  constructor
  · rw [to_json_schema_properties]
    simp [sheet_schema_of, sheet_properties, dictInsert, acontains, alookup]
  · simp [generate_yaml_template, template_sheet_data, example_row_of,
      dictInsert, acontains, alookup]

/-- C1 (amended): `validate_data` returns the empty sequence exactly when
the data conforms to the schema derived by `to_json_schema`, but it
collects at most one error message — the single `ValidationError` raised
by `jsonschema.validate`, i.e. the first engine error — not
every validation error. -/
theorem validate_data_first_error_only (st : Structure)
    (data : List (String × JVal)) :
    validate_data st data = (specAllValidationErrors st data).take 1 ∧
    (validate_data st data = [] ↔ specAllValidationErrors st data = []) := by
  unfold validate_data
  cases h : specAllValidationErrors st data with
  | nil => simp
  | cons e t => simp

/-- C1 counterexample: on `sampleStructure` and `sampleBadData` the
validation engine produces two errors but `validate_data` returns a
single message, so it does not return the sequence of all validation
error messages. -/
theorem validate_data_drops_errors :
    (specAllValidationErrors sampleStructure sampleBadData).length = 2 ∧
    (validate_data sampleStructure sampleBadData).length = 1 ∧
    validate_data sampleStructure sampleBadData
      ≠ specAllValidationErrors sampleStructure sampleBadData := by
  refine ⟨rfl, rfl, ?_⟩
  decide

end ExcelSync
